import Mathlib

/-!
Verification of the `papermc-js` client (`src/PaperMC.ts`) against its
specification.

The client is a thin façade over an HTTP transport: each query method issues
one GET request (via a module-level axios instance with a fixed base URL) and
returns the JSON body as-is — axios performs no runtime validation, the
TypeScript response types are erased.  We therefore embed response bodies as
untyped JavaScript/JSON values (`JSValue`), the transport as an oracle from
request paths to either a transport error or a body, and each operation as a
function returning the result together with the list of requests it issued.

JavaScript semantics relevant to the code are embedded faithfully:
out-of-bounds array indexing yields `undefined`, template-literal
interpolation coerces values with `String(...)` (so `undefined` prints as
"undefined"), and property access on `undefined` throws a TypeError.
JavaScript numbers are modelled as `Int` (all numbers occurring in the API are
integral build numbers).
-/

/-- Untyped JavaScript/JSON values, as delivered by the transport layer. -/
inductive JSValue where
  | undefined
  | null
  | bool (b : Bool)
  | num (n : Int)
  | str (s : String)
  | arr (elems : List JSValue)
  | obj (fields : List (String × JSValue))

mutual

/-- JavaScript `String(v)` / template-literal coercion. -/
def jsToString : JSValue → String
  | .undefined => "undefined"
  | .null => "null"
  | .bool b => if b then "true" else "false"
  | .num n => toString n
  | .str s => s
  | .arr xs => String.intercalate "," (jsJoinParts xs)
  | .obj _ => "[object Object]"

/-- `Array.prototype.join`: elements stringified, except `undefined` and
`null` which contribute the empty string. -/
def jsJoinParts : List JSValue → List String
  | [] => []
  | .undefined :: rest => "" :: jsJoinParts rest
  | .null :: rest => "" :: jsJoinParts rest
  | v :: rest => jsToString v :: jsJoinParts rest

end

/-- The one kind of runtime error the client's own code can raise:
a `TypeError` from accessing a property of `undefined`/`null`. -/
inductive JsError where
  | typeError
deriving DecidableEq, Repr

/-- JavaScript property access `v[f]` (also destructuring `const { f } = v`):
throws on `undefined`/`null`; missing properties read as `undefined`. -/
def jsGetField : JSValue → String → Except JsError JSValue
  | .undefined, _ => .error .typeError
  | .null, _ => .error .typeError
  | .obj fields, f => .ok ((fields.lookup f).getD .undefined)
  | .arr xs, f => if f = "length" then .ok (.num xs.length) else .ok .undefined
  | .str s, f => if f = "length" then .ok (.num s.length) else .ok .undefined
  | _, _ => .ok .undefined

/-- The compound JavaScript expression `a[a.length - 1]` as used by
`getLatestVersionDownloadURL`.  On `undefined`/`null` the `.length` access
throws; on an array it yields the last element, or `undefined` when the array
is empty (index `-1` is not an own property); on a string it yields the last
one-character substring; on numbers and booleans `.length` is `undefined`, so
the index is `NaN` and the result `undefined`; on a plain object the `length`
property (if numeric) selects the string key `length - 1`. -/
def jsLastIndex : JSValue → Except JsError JSValue
  | .undefined => .error .typeError
  | .null => .error .typeError
  | .arr xs => .ok ((xs.getLast?).getD .undefined)
  | .str s =>
      if s.isEmpty then .ok .undefined
      else .ok (.str (String.mk [s.back]))
  | .obj fields =>
      match (fields.lookup "length").getD .undefined with
      | .num n => .ok ((fields.lookup (toString (n - 1))).getD .undefined)
      | _ => .ok ((fields.lookup "NaN").getD .undefined)
  | _ => .ok .undefined

/-- A failure originating in the transport layer (axios): network error,
non-2xx HTTP status, or an undecodable response body. -/
inductive TransportError where
  | network (msg : String)
  | httpStatus (code : Nat)
  | decode (msg : String)
deriving DecidableEq, Repr

/-- An error surfaced to the client's caller: either a transport failure
propagated unchanged, or a JavaScript runtime error raised by the client's
own code. -/
inductive ClientError where
  | transport (e : TransportError)
  | js (e : JsError)
deriving DecidableEq, Repr

/-- One outbound HTTP request, as observed at the transport boundary.
Paths are relative to the instance's base URL, exactly as passed to
`paperAPIInstance.get`. -/
structure Request where
  method : String
  path : String
deriving DecidableEq, Repr

/-- The transport oracle: for a request path, the environment's answer —
either a transport failure or a JSON response body. -/
def Transport := String → Except TransportError JSValue

/-- `paperAPIInstance.get(path)`: issue one GET request and return the
response body, or propagate the transport failure unchanged.  The second
component records the requests issued. -/
def httpGet (t : Transport) (path : String) :
    Except ClientError JSValue × List Request :=
  (match t path with
   | .ok v => .ok v
   | .error e => .error (.transport e),
   [{ method := "GET", path := path }])

/-- The base URL configured on the module-level axios instance
(`paperAPIInstance`), fixed at load time; `paperAPIInstance.getUri()`
returns it. -/
def paperBaseURL : String := "https://api.papermc.io/v2"

namespace PaperMC

/-- `PaperMC.getProjects`: GET `/projects`. -/
def getProjects (t : Transport) : Except ClientError JSValue × List Request :=
  httpGet t "/projects"

/-- `PaperMC.getProject`: GET `/projects/${project}`. -/
def getProject (t : Transport) (project : String) :
    Except ClientError JSValue × List Request :=
  httpGet t ("/projects/" ++ project)

/-- `PaperMC.getVersion`: GET `/projects/${project}/versions/${version}`. -/
def getVersion (t : Transport) (project version : String) :
    Except ClientError JSValue × List Request :=
  httpGet t ("/projects/" ++ project ++ "/versions/" ++ version)

/-- `PaperMC.getBuilds`: GET `/projects/${project}/versions/${version}/builds`. -/
def getBuilds (t : Transport) (project version : String) :
    Except ClientError JSValue × List Request :=
  httpGet t ("/projects/" ++ project ++ "/versions/" ++ version ++ "/builds")

/-- `PaperMC.getBuild`:
GET `/projects/${project}/versions/${version}/builds/${build}`. -/
def getBuild (t : Transport) (project version : String) (build : Int) :
    Except ClientError JSValue × List Request :=
  httpGet t ("/projects/" ++ project ++ "/versions/" ++ version ++
    "/builds/" ++ toString build)

/-- `PaperMC.getDownloadURL`: the pure template
`` `${paperAPIInstance.getUri()}/projects/${project}/versions/${version}/builds/${build}/downloads/${project}-${version}-${build}.jar` ``.
The TypeScript parameter types (string, string, number) are erased at
runtime; the arguments are only ever interpolated, so the embedding takes
arbitrary `JSValue`s and coerces them exactly as the template literal does. -/
def getDownloadURL (project version build : JSValue) : String :=
  paperBaseURL ++ "/projects/" ++ jsToString project ++ "/versions/" ++
    jsToString version ++ "/builds/" ++ jsToString build ++ "/downloads/" ++
    jsToString project ++ "-" ++ jsToString version ++ "-" ++
    jsToString build ++ ".jar"

/-- `PaperMC.getVersionFamily`:
GET `/projects/${project}/version_group/${family}`. -/
def getVersionFamily (t : Transport) (project family : String) :
    Except ClientError JSValue × List Request :=
  httpGet t ("/projects/" ++ project ++ "/version_group/" ++ family)

/-- `PaperMC.getVersionFamilyBuilds`:
GET `/projects/${project}/version_group/${family}/builds`. -/
def getVersionFamilyBuilds (t : Transport) (project family : String) :
    Except ClientError JSValue × List Request :=
  httpGet t ("/projects/" ++ project ++ "/version_group/" ++ family ++
    "/builds")

/-- `PaperMC.getLatestVersionDownloadURL`, step by step from the source:
```
const { versions } = await PaperMC.getProject(project)
const { builds } = await PaperMC.getBuilds(project, versions[versions.length - 1])
return PaperMC.getDownloadURL(project, versions[versions.length - 1], builds[builds.length - 1].build)
```
The version passed to `getBuilds` is `versions[versions.length - 1]`, which is
`undefined` when the versions array is empty; `getBuilds` interpolates it into
its path, so the coercion `jsToString` is applied at the call.  A rejected
request or a thrown TypeError rejects the whole promise; the request trace of
both calls is accumulated. -/
def getLatestVersionDownloadURL (t : Transport) (project : String) :
    Except ClientError String × List Request :=
  match PaperMC.getProject t project with
  | (.error e, tr1) => (.error e, tr1)
  | (.ok data1, tr1) =>
    match jsGetField data1 "versions" with
    | .error e => (.error (.js e), tr1)
    | .ok versions =>
      match jsLastIndex versions with
      | .error e => (.error (.js e), tr1)
      | .ok lastVersion =>
        match PaperMC.getBuilds t project (jsToString lastVersion) with
        | (.error e, tr2) => (.error e, tr1 ++ tr2)
        | (.ok data2, tr2) =>
          match jsGetField data2 "builds" with
          | .error e => (.error (.js e), tr1 ++ tr2)
          | .ok builds =>
            match jsLastIndex builds with
            | .error e => (.error (.js e), tr1 ++ tr2)
            | .ok lastBuild =>
              match jsGetField lastBuild "build" with
              | .error e => (.error (.js e), tr1 ++ tr2)
              | .ok buildNum =>
                (.ok (PaperMC.getDownloadURL (.str project) lastVersion buildNum),
                 tr1 ++ tr2)

end PaperMC

/-- `getDownloadURL` with the base address of the instance made explicit,
used to show that the base address is the only ambient data the template
reads. -/
def buildDownloadURL (base : String) (project version build : JSValue) : String :=
  base ++ "/projects/" ++ jsToString project ++ "/versions/" ++
    jsToString version ++ "/builds/" ++ jsToString build ++ "/downloads/" ++
    jsToString project ++ "-" ++ jsToString version ++ "-" ++
    jsToString build ++ ".jar"

/-! ### Helper lemmas about the transport boundary -/

theorem httpGet_snd (t : Transport) (path : String) :
    (httpGet t path).2 = [{ method := "GET", path := path }] := rfl

theorem httpGet_fst (t : Transport) (path : String) :
    (httpGet t path).1 = (t path).mapError ClientError.transport := by
  unfold httpGet
  cases t path <;> rfl

theorem httpGet_fst_ok (t : Transport) (path : String) (v : JSValue)
    (h : (httpGet t path).1 = .ok v) : t path = .ok v := by
  unfold httpGet at h
  cases hp : t path <;> rw [hp] at h <;> simp_all

theorem httpGet_of_error (t : Transport) (path : String) (e : TransportError)
    (h : t path = .error e) :
    httpGet t path = (.error (.transport e), [{ method := "GET", path := path }]) := by
  unfold httpGet
  rw [h]

/-! ### Claim theorems -/

/-- C2: for every (project, version, build) triple — strings for the first
two, a number for the third, as in the TypeScript signature —
`getDownloadURL` returns exactly the fixed template
`{baseURL}/projects/{project}/versions/{version}/builds/{build}/downloads/{project}-{version}-{build}.jar`
with the identifiers substituted verbatim.  No network access is possible:
the embedded `PaperMC.getDownloadURL` does not take a `Transport` argument
at all, mirroring the source, which only reads the configured base URL. -/
theorem claim_C2_downloadURL_is_pure_template (p v : String) (b : Int) :
    PaperMC.getDownloadURL (.str p) (.str v) (.num b) =
      paperBaseURL ++ "/projects/" ++ p ++ "/versions/" ++ v ++ "/builds/" ++
        toString b ++ "/downloads/" ++ p ++ "-" ++ v ++ "-" ++ toString b ++
        ".jar" := rfl

/-- C4: each of the seven query operations issues exactly one outbound GET
request, whose path is exactly the documented endpoint with the inputs
substituted. -/
theorem claim_C4_one_get_per_operation (t : Transport)
    (project version family : String) (build : Int) :
    (PaperMC.getProjects t).2 = [{ method := "GET", path := "/projects" }] ∧
    (PaperMC.getProject t project).2 =
      [{ method := "GET", path := "/projects/" ++ project }] ∧
    (PaperMC.getVersion t project version).2 =
      [{ method := "GET",
         path := "/projects/" ++ project ++ "/versions/" ++ version }] ∧
    (PaperMC.getBuilds t project version).2 =
      [{ method := "GET",
         path := "/projects/" ++ project ++ "/versions/" ++ version ++ "/builds" }] ∧
    (PaperMC.getBuild t project version build).2 =
      [{ method := "GET",
         path := "/projects/" ++ project ++ "/versions/" ++ version ++
           "/builds/" ++ toString build }] ∧
    (PaperMC.getVersionFamily t project family).2 =
      [{ method := "GET",
         path := "/projects/" ++ project ++ "/version_group/" ++ family }] ∧
    (PaperMC.getVersionFamilyBuilds t project family).2 =
      [{ method := "GET",
         path := "/projects/" ++ project ++ "/version_group/" ++ family ++
           "/builds" }] :=
  ⟨rfl, rfl, rfl, rfl, rfl, rfl, rfl⟩

/-- C6: every query operation returns the response body verbatim — the
client performs no decoding step beyond JSON parsing (the TypeScript
response types are erased), so whatever value the transport delivers is
the value the caller receives, with every field present and equal and no
extra fields invented.  Stated as: the result of each operation is exactly
the transport's answer at the documented path, with transport errors
re-tagged but bodies untouched. -/
theorem claim_C6_body_returned_verbatim (t : Transport)
    (project version family : String) (build : Int) :
    (PaperMC.getProjects t).1 =
      (t "/projects").mapError ClientError.transport ∧
    (PaperMC.getProject t project).1 =
      (t ("/projects/" ++ project)).mapError ClientError.transport ∧
    (PaperMC.getVersion t project version).1 =
      (t ("/projects/" ++ project ++ "/versions/" ++ version)).mapError
        ClientError.transport ∧
    (PaperMC.getBuilds t project version).1 =
      (t ("/projects/" ++ project ++ "/versions/" ++ version ++
        "/builds")).mapError ClientError.transport ∧
    (PaperMC.getBuild t project version build).1 =
      (t ("/projects/" ++ project ++ "/versions/" ++ version ++ "/builds/" ++
        toString build)).mapError ClientError.transport ∧
    (PaperMC.getVersionFamily t project family).1 =
      (t ("/projects/" ++ project ++ "/version_group/" ++ family)).mapError
        ClientError.transport ∧
    (PaperMC.getVersionFamilyBuilds t project family).1 =
      (t ("/projects/" ++ project ++ "/version_group/" ++ family ++
        "/builds")).mapError ClientError.transport :=
  ⟨httpGet_fst t _, httpGet_fst t _, httpGet_fst t _, httpGet_fst t _,
   httpGet_fst t _, httpGet_fst t _, httpGet_fst t _⟩

/-- C7: `getDownloadURL` is total and never fails.  For every input —
arbitrary JavaScript values, hence in particular empty strings and any
build number — it returns the template string; its length is the fixed
70 characters of scaffolding plus twice each coerced argument, so a
string is always constructed and no error branch exists. -/
theorem claim_C7_downloadURL_total (p v b : JSValue) :
    PaperMC.getDownloadURL p v b =
      paperBaseURL ++ "/projects/" ++ jsToString p ++ "/versions/" ++
        jsToString v ++ "/builds/" ++ jsToString b ++ "/downloads/" ++
        jsToString p ++ "-" ++ jsToString v ++ "-" ++ jsToString b ++
        ".jar" ∧
    (PaperMC.getDownloadURL p v b).length =
      70 + 2 * ((jsToString p).length + (jsToString v).length +
        (jsToString b).length) := by
  refine ⟨rfl, ?_⟩
  have h0 : paperBaseURL.length = 25 := rfl
  have h1 : ("/projects/" : String).length = 10 := rfl
  have h2 : ("/versions/" : String).length = 10 := rfl
  have h3 : ("/builds/" : String).length = 8 := rfl
  have h4 : ("/downloads/" : String).length = 11 := rfl
  have h5 : ("-" : String).length = 1 := rfl
  have h6 : (".jar" : String).length = 4 := rfl
  simp only [PaperMC.getDownloadURL, String.length_append, h0, h1, h2, h3,
    h4, h5, h6]
  omega

/-- C9: `getDownloadURL` is deterministic — it factors through the fixed
module-level base address `paperBaseURL` and its arguments, and nothing
else: it equals `buildDownloadURL` applied to that constant, which is the
string fixed at load time.  No operation in the module mutates the base
address (the embedding has no mutating operation because the source has
none). -/
theorem claim_C9_downloadURL_deterministic :
    paperBaseURL = "https://api.papermc.io/v2" ∧
    ∀ p v b : JSValue,
      PaperMC.getDownloadURL p v b = buildDownloadURL paperBaseURL p v b :=
  ⟨rfl, fun _ _ _ => rfl⟩

/-- C10: identifiers are interpolated by raw string concatenation with no
escaping or validation.  The request path of `getProject` is the verbatim
concatenation for every project id, including ids containing `/`; as a
consequence a crafted project id makes `getProject` hit the `getVersion`
endpoint; and `getDownloadURL` likewise inserts a `/`-containing project id
verbatim into the URL. -/
theorem claim_C10_raw_interpolation (t : Transport) (project : String)
    (v b : JSValue) :
    (PaperMC.getProject t project).2 =
      [{ method := "GET", path := "/projects/" ++ project }] ∧
    (PaperMC.getProject t "paper/versions/1.20").2 =
      (PaperMC.getVersion t "paper" "1.20").2 ∧
    PaperMC.getDownloadURL (.str project) v b =
      paperBaseURL ++ "/projects/" ++ project ++ "/versions/" ++
        jsToString v ++ "/builds/" ++ jsToString b ++ "/downloads/" ++
        project ++ "-" ++ jsToString v ++ "-" ++ jsToString b ++ ".jar" ∧
    PaperMC.getDownloadURL (.str "pa/per") (.str "1.20") (.num 17) =
      "https://api.papermc.io/v2/projects/pa/per/versions/1.20/builds/17/downloads/pa/per-1.20-17.jar" :=
  ⟨rfl, rfl, rfl, by rfl⟩

/-- C5: when the transport fails at the requested path, each query
operation returns exactly that transport error (re-tagged into the
caller-facing error type but otherwise unchanged), and its request trace
is still the single request — no retry, no recovery, no partial result. -/
theorem claim_C5_transport_errors_propagate (t : Transport)
    (project version family : String) (build : Int) (e : TransportError) :
    (t "/projects" = .error e →
      PaperMC.getProjects t =
        (.error (.transport e), [{ method := "GET", path := "/projects" }])) ∧
    (t ("/projects/" ++ project) = .error e →
      PaperMC.getProject t project =
        (.error (.transport e),
         [{ method := "GET", path := "/projects/" ++ project }])) ∧
    (t ("/projects/" ++ project ++ "/versions/" ++ version) = .error e →
      PaperMC.getVersion t project version =
        (.error (.transport e),
         [{ method := "GET",
            path := "/projects/" ++ project ++ "/versions/" ++ version }])) ∧
    (t ("/projects/" ++ project ++ "/versions/" ++ version ++ "/builds") =
        .error e →
      PaperMC.getBuilds t project version =
        (.error (.transport e),
         [{ method := "GET",
            path := "/projects/" ++ project ++ "/versions/" ++ version ++
              "/builds" }])) ∧
    (t ("/projects/" ++ project ++ "/versions/" ++ version ++ "/builds/" ++
        toString build) = .error e →
      PaperMC.getBuild t project version build =
        (.error (.transport e),
         [{ method := "GET",
            path := "/projects/" ++ project ++ "/versions/" ++ version ++
              "/builds/" ++ toString build }])) ∧
    (t ("/projects/" ++ project ++ "/version_group/" ++ family) = .error e →
      PaperMC.getVersionFamily t project family =
        (.error (.transport e),
         [{ method := "GET",
            path := "/projects/" ++ project ++ "/version_group/" ++ family }])) ∧
    (t ("/projects/" ++ project ++ "/version_group/" ++ family ++ "/builds") =
        .error e →
      PaperMC.getVersionFamilyBuilds t project family =
        (.error (.transport e),
         [{ method := "GET",
            path := "/projects/" ++ project ++ "/version_group/" ++ family ++
              "/builds" }])) :=
  ⟨fun h => httpGet_of_error t _ e h, fun h => httpGet_of_error t _ e h,
   fun h => httpGet_of_error t _ e h, fun h => httpGet_of_error t _ e h,
   fun h => httpGet_of_error t _ e h, fun h => httpGet_of_error t _ e h,
   fun h => httpGet_of_error t _ e h⟩

/-- A transport in which every request fails with HTTP status 500, used to
exercise the error-propagation theorem on concrete inputs. -/
def failingTransport : Transport := fun _ => .error (.httpStatus 500)

/-- Concrete instance of C5: against an always-failing transport (HTTP 500),
each operation at concrete inputs surfaces that very error after exactly
one request. -/
theorem claim_C5_transport_errors_propagate_witness :
    PaperMC.getProjects failingTransport =
      (.error (.transport (.httpStatus 500)),
       [{ method := "GET", path := "/projects" }]) ∧
    PaperMC.getProject failingTransport "paper" =
      (.error (.transport (.httpStatus 500)),
       [{ method := "GET", path := "/projects/" ++ "paper" }]) ∧
    PaperMC.getVersion failingTransport "paper" "1.20" =
      (.error (.transport (.httpStatus 500)),
       [{ method := "GET",
          path := "/projects/" ++ "paper" ++ "/versions/" ++ "1.20" }]) ∧
    PaperMC.getBuilds failingTransport "paper" "1.20" =
      (.error (.transport (.httpStatus 500)),
       [{ method := "GET",
          path := "/projects/" ++ "paper" ++ "/versions/" ++ "1.20" ++
            "/builds" }]) ∧
    PaperMC.getBuild failingTransport "paper" "1.20" 17 =
      (.error (.transport (.httpStatus 500)),
       [{ method := "GET",
          path := "/projects/" ++ "paper" ++ "/versions/" ++ "1.20" ++
            "/builds/" ++ toString (17 : Int) }]) ∧
    PaperMC.getVersionFamily failingTransport "paper" "1.20" =
      (.error (.transport (.httpStatus 500)),
       [{ method := "GET",
          path := "/projects/" ++ "paper" ++ "/version_group/" ++ "1.20" }]) ∧
    PaperMC.getVersionFamilyBuilds failingTransport "paper" "1.20" =
      (.error (.transport (.httpStatus 500)),
       [{ method := "GET",
          path := "/projects/" ++ "paper" ++ "/version_group/" ++ "1.20" ++
            "/builds" }]) := by
  obtain ⟨h1, h2, h3, h4, h5, h6, h7⟩ :=
    claim_C5_transport_errors_propagate failingTransport "paper" "1.20"
      "1.20" 17 (.httpStatus 500)
  exact ⟨h1 rfl, h2 rfl, h3 rfl, h4 rfl, h5 rfl, h6 rfl, h7 rfl⟩

theorem getLast?_map {α β : Type} (f : α → β) :
    ∀ l : List α, (l.map f).getLast? = l.getLast?.map f
  | [] => rfl
  | [_] => rfl
  | a :: b :: l => by
      rw [List.map_cons, List.map_cons, List.getLast?_cons_cons,
        ← List.map_cons, List.getLast?_cons_cons, getLast?_map f (b :: l)]

/-- C1: whenever `getProject p` answers with a body whose `versions` field
is a string array ending in `lastVersion`, and `getBuilds p lastVersion`
answers with a body whose `builds` field is an array ending in a record
whose `build` field is the number `lastBuild`, `getLatestVersionDownloadURL p`
returns exactly `getDownloadURL p lastVersion lastBuild`. -/
theorem claim_C1_latest_composes_getDownloadURL (t : Transport) (p : String)
    (d1 d2 : JSValue) (versions : List String) (lastVersion : String)
    (builds : List JSValue) (lastBuildRec : JSValue) (lastBuild : Int)
    (h1 : (PaperMC.getProject t p).1 = .ok d1)
    (h2 : jsGetField d1 "versions" = .ok (.arr (versions.map .str)))
    (h3 : versions.getLast? = some lastVersion)
    (h4 : (PaperMC.getBuilds t p lastVersion).1 = .ok d2)
    (h5 : jsGetField d2 "builds" = .ok (.arr builds))
    (h6 : builds.getLast? = some lastBuildRec)
    (h7 : jsGetField lastBuildRec "build" = .ok (.num lastBuild)) :
    (PaperMC.getLatestVersionDownloadURL t p).1 =
      .ok (PaperMC.getDownloadURL (.str p) (.str lastVersion)
        (.num lastBuild)) := by
  have ht1 : t ("/projects/" ++ p) = .ok d1 := httpGet_fst_ok t _ d1 h1
  have ht2 : t ("/projects/" ++ p ++ "/versions/" ++ lastVersion ++
      "/builds") = .ok d2 := httpGet_fst_ok t _ d2 h4
  have hlv : jsLastIndex (.arr (versions.map .str)) = .ok (.str lastVersion) := by
    simp [jsLastIndex, getLast?_map, h3]
  have hlb : jsLastIndex (.arr builds) = .ok lastBuildRec := by
    simp [jsLastIndex, h6]
  simp only [PaperMC.getLatestVersionDownloadURL, PaperMC.getProject,
    PaperMC.getBuilds, httpGet, ht1, ht2, h2, h5, h7, hlv, hlb, jsToString]

/-- The mocked transport of the specification's concrete scenario:
`getProject("paper")` yields versions `["1.19", "1.20"]` and
`getBuilds("paper", "1.20")` yields builds numbered 10 and 17. -/
def latestScenarioTransport : Transport := fun path =>
  if path = "/projects/paper" then
    .ok (.obj [("project_id", .str "paper"),
               ("versions", .arr [.str "1.19", .str "1.20"])])
  else if path = "/projects/paper/versions/1.20/builds" then
    .ok (.obj [("project_id", .str "paper"), ("version", .str "1.20"),
               ("builds", .arr [.obj [("build", .num 10)],
                                .obj [("build", .num 17)]])])
  else .error (.httpStatus 404)

/-- Concrete instance of C1 — the specification's own scenario: with the
mocked responses above, `getLatestVersionDownloadURL("paper")` returns
`getDownloadURL("paper", "1.20", 17)`, which is the expected literal URL. -/
theorem claim_C1_latest_composes_getDownloadURL_witness :
    (PaperMC.getLatestVersionDownloadURL latestScenarioTransport "paper").1 =
      .ok (PaperMC.getDownloadURL (.str "paper") (.str "1.20") (.num 17)) ∧
    PaperMC.getDownloadURL (.str "paper") (.str "1.20") (.num 17) =
      "https://api.papermc.io/v2/projects/paper/versions/1.20/builds/17/downloads/paper-1.20-17.jar" := by
  refine ⟨?_, by rfl⟩
  exact claim_C1_latest_composes_getDownloadURL latestScenarioTransport
    "paper"
    (.obj [("project_id", .str "paper"),
           ("versions", .arr [.str "1.19", .str "1.20"])])
    (.obj [("project_id", .str "paper"), ("version", .str "1.20"),
           ("builds", .arr [.obj [("build", .num 10)],
                            .obj [("build", .num 17)]])])
    ["1.19", "1.20"] "1.20"
    [.obj [("build", .num 10)], .obj [("build", .num 17)]]
    (.obj [("build", .num 17)]) 17
    (by rfl) (by rfl) (by rfl) (by rfl) (by rfl) (by rfl) (by rfl)

/-- C8: the request trace of `getLatestVersionDownloadURL` always begins
with the `getProject` request; anything after it is at most one further
request, and that request exists only when `getProject` already succeeded,
with its version path segment computed from `getProject`'s result (the
coerced last element of the `versions` field).  In particular no
`getBuilds` request is ever issued before `getProject` completes. -/
theorem claim_C8_getProject_request_first (t : Transport) (project : String) :
    ∃ rest : List Request,
      (PaperMC.getLatestVersionDownloadURL t project).2 =
        { method := "GET", path := "/projects/" ++ project } :: rest ∧
      (rest = [] ∨
        ∃ d versions lastVersion,
          (PaperMC.getProject t project).1 = .ok d ∧
          jsGetField d "versions" = .ok versions ∧
          jsLastIndex versions = .ok lastVersion ∧
          rest = [{ method := "GET",
                    path := "/projects/" ++ project ++ "/versions/" ++
                      jsToString lastVersion ++ "/builds" }]) := by
  cases hp : t ("/projects/" ++ project) with
  | error e =>
      refine ⟨[], ?_, Or.inl rfl⟩
      simp [PaperMC.getLatestVersionDownloadURL, PaperMC.getProject,
        httpGet, hp]
  | ok d =>
      cases hv : jsGetField d "versions" with
      | error e1 =>
          refine ⟨[], ?_, Or.inl rfl⟩
          simp [PaperMC.getLatestVersionDownloadURL, PaperMC.getProject,
            httpGet, hp, hv]
      | ok versions =>
          cases hl : jsLastIndex versions with
          | error e2 =>
              refine ⟨[], ?_, Or.inl rfl⟩
              simp [PaperMC.getLatestVersionDownloadURL, PaperMC.getProject,
                httpGet, hp, hv, hl]
          | ok lastVersion =>
              refine ⟨[{ method := "GET",
                         path := "/projects/" ++ project ++ "/versions/" ++
                           jsToString lastVersion ++ "/builds" }], ?_,
                Or.inr ⟨d, versions, lastVersion, ?_, hv, hl, rfl⟩⟩
              · cases hb : t ("/projects/" ++ project ++ "/versions/" ++
                    jsToString lastVersion ++ "/builds") with
                | error e3 =>
                    simp [PaperMC.getLatestVersionDownloadURL,
                      PaperMC.getProject, PaperMC.getBuilds, httpGet, hp,
                      hv, hl, hb]
                | ok d2 =>
                    cases hbf : jsGetField d2 "builds" with
                    | error e4 =>
                        simp [PaperMC.getLatestVersionDownloadURL,
                          PaperMC.getProject, PaperMC.getBuilds, httpGet,
                          hp, hv, hl, hb, hbf]
                    | ok builds =>
                        cases hbl : jsLastIndex builds with
                        | error e5 =>
                            simp [PaperMC.getLatestVersionDownloadURL,
                              PaperMC.getProject, PaperMC.getBuilds,
                              httpGet, hp, hv, hl, hb, hbf, hbl]
                        | ok lastBuild =>
                            cases hbb : jsGetField lastBuild "build" with
                            | error e6 =>
                                simp [PaperMC.getLatestVersionDownloadURL,
                                  PaperMC.getProject, PaperMC.getBuilds,
                                  httpGet, hp, hv, hl, hb, hbf, hbl, hbb]
                            | ok buildNum =>
                                simp [PaperMC.getLatestVersionDownloadURL,
                                  PaperMC.getProject, PaperMC.getBuilds,
                                  httpGet, hp, hv, hl, hb, hbf, hbl, hbb]
              · simp [PaperMC.getProject, httpGet, hp]

/-- A mocked transport under which `getProject("paper")` answers with an
empty `versions` array, and the path the client then actually requests —
`/projects/paper/versions/undefined/builds`, because the out-of-bounds
index `versions[-1]` is `undefined` — answers with a one-element build
list. -/
def emptyVersionsTransport : Transport := fun path =>
  if path = "/projects/paper" then
    .ok (.obj [("project_id", .str "paper"), ("versions", .arr [])])
  else if path = "/projects/paper/versions/undefined/builds" then
    .ok (.obj [("builds", .arr [.obj [("build", .num 7)]])])
  else .error (.httpStatus 404)

/-- Counterexample to C3 as stated: with an empty `versions` list the
client does not fail.  `versions[versions.length - 1]` is `undefined`
(out-of-bounds indexing does not throw), it is interpolated into the
`getBuilds` path as the literal text "undefined", and if that request
succeeds with a non-empty build list the call returns a URL string — here
`.../projects/paper/versions/undefined/builds/7/downloads/paper-undefined-7.jar`. -/
theorem claim_C3_counterexample :
    (PaperMC.getProject emptyVersionsTransport "paper").1 =
      .ok (.obj [("project_id", .str "paper"), ("versions", .arr [])]) ∧
    jsGetField (.obj [("project_id", .str "paper"), ("versions", .arr [])])
      "versions" = .ok (.arr []) ∧
    PaperMC.getLatestVersionDownloadURL emptyVersionsTransport "paper" =
      (.ok "https://api.papermc.io/v2/projects/paper/versions/undefined/builds/7/downloads/paper-undefined-7.jar",
       [{ method := "GET", path := "/projects/paper" },
        { method := "GET",
          path := "/projects/paper/versions/undefined/builds" }]) :=
  ⟨by rfl, by rfl, by rfl⟩

/-- C3 amended: `getLatestVersionDownloadURL(p)` fails (with a TypeError,
propagated to the caller) when the build list fetched for the resolved
last version is an empty sequence.  When `getProject(p).versions` is an
empty sequence it does not fail locally: the last version resolves to
`undefined` and the client issues the build request for the literal
version text "undefined", so it fails only if that request fails or the
build list it returns is empty or missing. -/
theorem claim_C3_amended_failure_conditions :
    (∀ (t : Transport) (p : String) (d1 vsv lv d2 : JSValue),
      (PaperMC.getProject t p).1 = .ok d1 →
      jsGetField d1 "versions" = .ok vsv →
      jsLastIndex vsv = .ok lv →
      (PaperMC.getBuilds t p (jsToString lv)).1 = .ok d2 →
      jsGetField d2 "builds" = .ok (.arr []) →
      (PaperMC.getLatestVersionDownloadURL t p).1 =
        .error (.js .typeError)) ∧
    (∀ (t : Transport) (p : String) (d1 : JSValue),
      (PaperMC.getProject t p).1 = .ok d1 →
      jsGetField d1 "versions" = .ok (.arr []) →
      (PaperMC.getLatestVersionDownloadURL t p).2 =
        [{ method := "GET", path := "/projects/" ++ p },
         { method := "GET",
           path := "/projects/" ++ p ++ "/versions/undefined/builds" }]) := by
  constructor
  · intro t p d1 vsv lv d2 h1 h2 h3 h4 h5
    have ht1 : t ("/projects/" ++ p) = .ok d1 := httpGet_fst_ok t _ d1 h1
    have ht2 : t ("/projects/" ++ p ++ "/versions/" ++ jsToString lv ++
        "/builds") = .ok d2 := httpGet_fst_ok t _ d2 h4
    have h6 : jsLastIndex (.arr []) = Except.ok JSValue.undefined := rfl
    have h7 : jsGetField JSValue.undefined "build" =
        Except.error JsError.typeError := rfl
    simp only [PaperMC.getLatestVersionDownloadURL, PaperMC.getProject,
      PaperMC.getBuilds, httpGet, ht1, ht2, h2, h3, h5, h6, h7]
  · intro t p d1 h1 h2
    have ht1 : t ("/projects/" ++ p) = .ok d1 := httpGet_fst_ok t _ d1 h1
    have h3 : jsLastIndex (.arr []) = Except.ok JSValue.undefined := rfl
    cases hb : t ("/projects/" ++ (p ++ "/versions/undefined/builds")) with
    | error e3 =>
        simp [PaperMC.getLatestVersionDownloadURL, PaperMC.getProject,
          PaperMC.getBuilds, httpGet, jsToString, ht1, h2, h3, hb,
          String.append_assoc]
    | ok d2 =>
        cases hbf : jsGetField d2 "builds" with
        | error e4 =>
            simp [PaperMC.getLatestVersionDownloadURL, PaperMC.getProject,
              PaperMC.getBuilds, httpGet, jsToString, ht1, h2, h3, hb, hbf,
              String.append_assoc]
        | ok builds =>
            cases hbl : jsLastIndex builds with
            | error e5 =>
                simp [PaperMC.getLatestVersionDownloadURL,
                  PaperMC.getProject, PaperMC.getBuilds, httpGet,
                  jsToString, ht1, h2, h3, hb, hbf, hbl,
                  String.append_assoc]
            | ok lastBuild =>
                cases hbb : jsGetField lastBuild "build" with
                | error e6 =>
                    simp [PaperMC.getLatestVersionDownloadURL,
                      PaperMC.getProject, PaperMC.getBuilds, httpGet,
                      jsToString, ht1, h2, h3, hb, hbf, hbl, hbb,
                      String.append_assoc]
                | ok buildNum =>
                    simp [PaperMC.getLatestVersionDownloadURL,
                      PaperMC.getProject, PaperMC.getBuilds, httpGet,
                      jsToString, ht1, h2, h3, hb, hbf, hbl, hbb,
                      String.append_assoc]

/-- A mocked transport whose version list is non-empty but whose build
list for the last version ("1.20") is empty. -/
def emptyBuildsTransport : Transport := fun path =>
  if path = "/projects/paper" then
    .ok (.obj [("project_id", .str "paper"),
               ("versions", .arr [.str "1.20"])])
  else if path = "/projects/paper/versions/1.20/builds" then
    .ok (.obj [("builds", .arr [])])
  else .error (.httpStatus 404)

/-- Concrete instances of the amended C3: an empty build list makes
`getLatestVersionDownloadURL("paper")` fail with a TypeError, and an empty
version list makes it request `/projects/paper/versions/undefined/builds`. -/
theorem claim_C3_amended_failure_conditions_witness :
    (PaperMC.getLatestVersionDownloadURL emptyBuildsTransport "paper").1 =
      .error (.js .typeError) ∧
    (PaperMC.getLatestVersionDownloadURL emptyVersionsTransport "paper").2 =
      [{ method := "GET", path := "/projects/" ++ "paper" },
       { method := "GET",
         path := "/projects/" ++ "paper" ++ "/versions/undefined/builds" }] := by
  constructor
  · exact claim_C3_amended_failure_conditions.1 emptyBuildsTransport "paper"
      (.obj [("project_id", .str "paper"), ("versions", .arr [.str "1.20"])])
      (.arr [.str "1.20"]) (.str "1.20") (.obj [("builds", .arr [])])
      (by rfl) (by rfl) (by rfl) (by rfl) (by rfl)
  · exact claim_C3_amended_failure_conditions.2 emptyVersionsTransport
      "paper"
      (.obj [("project_id", .str "paper"), ("versions", .arr [])])
      (by rfl) (by rfl)
